import Mathlib

/-!
Verification of the RecurrentLidarNet autonomous-driving node
(`hg_dagger.py`): a shallow embedding of its temporal ring buffer,
timestamp-delta computation, inference adapter, mode toggle, recording
session state machine and control-loop denormalization, together with
proofs of the specified properties.

Numeric values are modelled over `ℚ`; machine floats in the source are
exact on every constant appearing here (the properties are about control
flow and affine arithmetic, not rounding).
-/

namespace RecurrentLidarNet

/-! ### Temporal ring buffer (`collections.deque` with `maxlen = seq_len`)

`buff_scans` and `buff_ts` in `AutonomousNode.__init__` are
`deque(maxlen=self.seq_len)`.  `lidar_callback` appends one entry per
arriving scan; when full, the deque evicts its oldest entry.  `dnn_output`
snapshots the contents with `list(self.buff_scans)`. -/

/-- The last `cap` elements of a list (all of it when shorter). -/
def takeRight (cap : ℕ) (l : List α) : List α :=
  l.drop (l.length - cap)

/-- `deque.append` with `maxlen = cap`: append on the right, evict from the
left when the capacity is exceeded. -/
def dequePush (cap : ℕ) (buf : List α) (x : α) : List α :=
  let b := buf ++ [x]
  if cap < b.length then b.drop (b.length - cap) else b

/-- Pushing a whole arrival sequence, oldest first (repeated
`lidar_callback`). -/
def pushAll (cap : ℕ) (buf : List α) (xs : List α) : List α :=
  xs.foldl (dequePush cap) buf

/-- `list(deque)` in `dnn_output`: an order-preserving copy of the
contents. -/
def snapshot (buf : List α) : List α := buf

theorem dequePush_eq_takeRight (cap : ℕ) (buf : List α) (x : α) :
    dequePush cap buf x = takeRight cap (buf ++ [x]) := by
  simp only [dequePush, takeRight]
  by_cases h : cap < (buf ++ [x]).length
  · rw [if_pos h]
  · rw [if_neg h, Nat.sub_eq_zero_of_le (Nat.le_of_not_lt h),
      List.drop_zero]

theorem takeRight_append (cap : ℕ) (p m : List α) (h : cap ≤ m.length) :
    takeRight cap (p ++ m) = takeRight cap m := by
  unfold takeRight
  have h1 : p.length + m.length - cap = p.length + (m.length - cap) := by
    omega
  rw [List.length_append, h1, List.drop_append]

theorem takeRight_length (cap : ℕ) (l : List α) :
    (takeRight cap l).length = min cap l.length := by
  unfold takeRight
  rw [List.length_drop]
  omega

theorem takeRight_append_takeRight (cap : ℕ) (l xs : List α) :
    takeRight cap (takeRight cap l ++ xs) = takeRight cap (l ++ xs) := by
  by_cases h : cap ≤ l.length
  · have hsplit : l = l.take (l.length - cap) ++ takeRight cap l :=
      (List.take_append_drop (l.length - cap) l).symm
    have hlen : cap ≤ (takeRight cap l ++ xs).length := by
      rw [List.length_append, takeRight_length]
      omega
    conv_rhs => rw [hsplit, List.append_assoc]
    rw [takeRight_append _ _ _ hlen]
  · have : takeRight cap l = l := by
      unfold takeRight
      rw [Nat.sub_eq_zero_of_le (Nat.le_of_not_le h), List.drop_zero]
    rw [this]

theorem pushAll_eq_takeRight (cap : ℕ) (buf xs : List α)
    (hb : buf.length ≤ cap) :
    pushAll cap buf xs = takeRight cap (buf ++ xs) := by
  induction xs generalizing buf with
  | nil =>
      have h0 : buf.length - cap = 0 := Nat.sub_eq_zero_of_le hb
      simp [pushAll, takeRight, h0]
  | cons x xs ih =>
      have hlen : (dequePush cap buf x).length ≤ cap := by
        rw [dequePush_eq_takeRight, takeRight_length]
        omega
      calc pushAll cap buf (x :: xs)
          = pushAll cap (dequePush cap buf x) xs := rfl
        _ = takeRight cap (dequePush cap buf x ++ xs) := ih _ hlen
        _ = takeRight cap (takeRight cap (buf ++ [x]) ++ xs) := by
              rw [dequePush_eq_takeRight]
        _ = takeRight cap ((buf ++ [x]) ++ xs) :=
              takeRight_append_takeRight ..
        _ = takeRight cap (buf ++ (x :: xs)) := by
              rw [List.append_assoc]
              rfl

/-! ### Timestamp deltas (`dnn_output`, step 2)

`dnn_output` builds `ts = np.array(ts_list)` from the timestamp snapshot,
takes `np.diff(ts)`, and if `not np.all(np.diff(ts) >= 0)` replaces the
diffs by `np.ones(seq_len-1) * 0.025`; finally it prepends a zero
(`dt_full = np.zeros(seq_len); dt_full[1:] = diffs`). -/

/-- `np.diff(ts)`: successive differences `ts[i+1] - ts[i]`. -/
def diffsQ (ts : List ℚ) : List ℚ :=
  List.zipWith (fun a b => a - b) ts.tail ts

/-- The guard `not np.all(np.diff(ts) >= 0)` of `dnn_output`. -/
def nonMonotonic (ts : List ℚ) : Bool :=
  ! (diffsQ ts).all (fun d => decide (0 ≤ d))

/-- The delta channel `dt_full` fed to the model: a zero prepended to the
successive diffs, or to the constant fallback `0.025` (the nominal 40 Hz
control period) when a diff is negative. -/
def dtFull (sl : ℕ) (ts : List ℚ) : List ℚ :=
  (0 : ℚ) ::
    (if nonMonotonic ts then List.replicate (sl - 1) (0.025 : ℚ)
     else diffsQ ts)

/-! ### `linear_map` (static method of `AutonomousNode`) -/

/-- `AutonomousNode.linear_map`: affine rescaling with a degenerate-domain
guard returning the midpoint of the output range. -/
def linear_map (x x_min x_max y_min y_max : ℚ) : ℚ :=
  if x_max = x_min then (y_max + y_min) / 2
  else (x - x_min) / (x_max - x_min) * (y_max - y_min) + y_min

/-! ### Inference adapter (`dnn_output`)

`dnn_output` snapshots both buffers under the lock, returns the neutral
`(0.0, 0.0)` when fewer than `seq_len` scans are buffered, otherwise
builds the `(seq_len, num_ranges, 2)` input (channel 0 = ranges,
channel 1 = the delta broadcast across range bins), invokes the TFLite
interpreter and returns `(out[0], out[1])`.  The whole body is wrapped in
`try/except` returning `(0.0, 0.0)`. -/

/-- Buffered state read by `dnn_output`: the model's sequence length and
the two parallel ring-buffer snapshots. -/
structure DnnState where
  seq_len : ℕ
  buff_scans : List (List ℚ)
  buff_ts : List ℚ
deriving DecidableEq

/-- The TFLite interpreter as an opaque fallible collaborator: from the
`(seq_len, num_ranges, 2)` input tensor to an output vector, or a raised
exception. -/
def ModelFn : Type :=
  List (List (ℚ × ℚ)) → Except String (List ℚ)

/-- Steps 3–4 of `dnn_output`: tile the delta over the range bins and
stack it with the scans into the two-channel input
(`np.stack([scans, dt_tiled], axis=2)`). -/
def buildSeq (scans : List (List ℚ)) (dts : List ℚ) :
    List (List (ℚ × ℚ)) :=
  List.zipWith (fun row d => row.map (fun r => (r, d))) scans dts

/-- Reading `out[0], out[1]` from the output vector; an out-of-range read
raises. -/
def readOut (out : List ℚ) : Except String (ℚ × ℚ) :=
  match out with
  | a :: b :: _ => Except.ok (a, b)
  | _ => Except.error "index out of range"

/-- The fallible part of `dnn_output` (delta construction, input tensor
build, model invocation, output read). -/
def runInference (model : ModelFn) (sl : ℕ) (scans : List (List ℚ))
    (ts : List ℚ) : Except String (ℚ × ℚ) := do
  let out ← model (buildSeq scans (dtFull sl ts))
  readOut out

/-- `dnn_output`: the under-run guard returns neutral `(0.0, 0.0)`, and
any exception from the inference sequence is caught and converted to the
same neutral output. -/
def dnn_output (model : ModelFn) (s : DnnState) : ℚ × ℚ :=
  if s.buff_scans.length < s.seq_len then (0, 0)
  else
    match runInference model s.seq_len s.buff_scans s.buff_ts with
    | Except.ok v => v
    | Except.error _ => (0, 0)

theorem dnn_output_underrun (model : ModelFn) (s : DnnState)
    (h : s.buff_scans.length < s.seq_len) :
    dnn_output model s = (0, 0) := by
  simp [dnn_output, h]

theorem dnn_output_caught (model : ModelFn) (s : DnnState) (e : String)
    (h : runInference model s.seq_len s.buff_scans s.buff_ts =
      Except.error e) :
    dnn_output model s = (0, 0) := by
  unfold dnn_output
  by_cases hlt : s.buff_scans.length < s.seq_len
  · rw [if_pos hlt]
  · rw [if_neg hlt, h]

/-! ### Control loop (autonomous branch of `control_loop`)

With manual mode off, `control_loop` reads `(steer, speed)` from
`dnn_output`, denormalizes with `linear_map`, multiplies the speed by the
1.2 gain, and publishes `(drive.speed, drive.steering_angle)`. -/

/-- The autonomous-mode publish of `control_loop`: `none` when manual
mode is on (no inferred command is published), otherwise the
`(speed, steering_angle)` pair of the published `AckermannDriveStamped`
message. -/
def controlPublish (model : ModelFn) (joy : Bool) (st : DnnState) :
    Option (ℚ × ℚ) :=
  if joy then none
  else
    let p := dnn_output model st
    let speed := linear_map p.2 0 1 (-0.5) 7.0
    let steer := linear_map p.1 (-1) 1 (-0.34) 0.34
    some (speed * 1.2, steer)

/-! ### Mode toggle and recording session state machine

`button_callback` edge-detects button A (`curr == 1 and
curr != self.prev_button`), toggles the `is_joy` parameter, and opens the
bag (or re-activates recording) on entering manual mode, closing it on
leaving.  `control_loop` reconciles the bag with the mode each tick.
`sensor_cb` writes one synchronized frame per call while recording is
active.  `double_open` and `wrote_no_writer` are ghost observers: the
first records `_open_bag` being entered while a bag is already open, the
second records `sensor_cb` reaching `self.writer.write` with
`self.writer is None`. -/

/-- The node's mode / recording state: `prev_button`, the `is_joy`
parameter, the bag flags, the writer handle (present or `None`), and the
message counter, plus the two ghost observers. -/
structure NodeState where
  prev_button : ℕ
  is_joy : Bool
  bag_open : Bool
  writer_present : Bool
  recording_active : Bool
  msg_counter : ℕ
  double_open : Bool
  wrote_no_writer : Bool
deriving DecidableEq

/-- `AutonomousNode.__init__`: `prev_button = 0`, `is_joy` declared
`False`, `bag_open = False`, `writer = None`, `recording_active = False`,
`msg_counter = 0`. -/
def initState : NodeState :=
  ⟨0, false, false, false, false, 0, false, false⟩

/-- `_open_bag`: create the writer, register the topics, and set
`bag_open = True`, `msg_counter = 0`, `recording_active = True`. -/
def open_bag (s : NodeState) : NodeState :=
  { s with double_open := s.double_open || s.bag_open
           writer_present := true
           bag_open := true
           msg_counter := 0
           recording_active := true }

/-- `_close_bag`: close the writer if present, then
`bag_open = False`, `recording_active = False`, `writer = None`
(the message counter is only logged, not reset). -/
def close_bag (s : NodeState) : NodeState :=
  { s with bag_open := false
           recording_active := false
           writer_present := false }

/-- `button_callback`: on a 0→1 rising edge of button A, toggle `is_joy`;
entering manual mode opens the bag (or re-activates recording when one is
already open), leaving it closes the bag. -/
def button_callback (s : NodeState) (curr : ℕ) : NodeState :=
  if curr = 1 ∧ curr ≠ s.prev_button then
    let new_val := ! s.is_joy
    let s1 := { s with is_joy := new_val }
    let s2 :=
      if new_val then
        if ¬ s1.bag_open then open_bag s1
        else { s1 with recording_active := true }
      else close_bag s1
    { s2 with prev_button := curr }
  else { s with prev_button := curr }

/-- The bag-reconciliation prefix of each `control_loop` tick: open the
bag when manual mode is on and no bag is open; close it when manual mode
is off and one is open. -/
def control_tick (s : NodeState) : NodeState :=
  if s.is_joy ∧ ¬ s.bag_open then open_bag s
  else if ¬ s.is_joy ∧ s.bag_open then close_bag s
  else s

/-- `sensor_cb`: drop the frame when recording is inactive; otherwise
write the six messages (a write failure is caught and logged, leaving the
counter unchanged — `ok` tells whether the writes succeeded) and
increment `msg_counter`. -/
def sensor_cb (s : NodeState) (ok : Bool) : NodeState :=
  if ¬ s.recording_active then s
  else if ¬ s.writer_present then { s with wrote_no_writer := true }
  else if ok then { s with msg_counter := s.msg_counter + 1 }
  else s

/-- The asynchronous events dispatched to the node that touch the mode or
recording state. -/
inductive Ev where
  | button (curr : ℕ)
  | tick
  | frame (ok : Bool)
deriving DecidableEq

/-- One dispatched callback. -/
def step (s : NodeState) : Ev → NodeState
  | Ev.button curr => button_callback s curr
  | Ev.tick => control_tick s
  | Ev.frame ok => sensor_cb s ok

/-- Running an event trace from the freshly initialized node. -/
def runEvents (evts : List Ev) : NodeState :=
  evts.foldl step initState

/-- The recording-state invariant: the bag flag tracks the writer handle,
recording implies an open bag, and neither ghost observer has fired. -/
def Inv (s : NodeState) : Prop :=
  s.bag_open = s.writer_present ∧
  (s.recording_active = true → s.bag_open = true) ∧
  s.double_open = false ∧
  s.wrote_no_writer = false

theorem inv_init : Inv initState := by
  simp [Inv, initState]

theorem inv_step (s : NodeState) (e : Ev) (h : Inv s) : Inv (step s e) := by
  obtain ⟨h1, h2, h3, h4⟩ := h
  cases e with
  | button curr =>
      simp only [step, button_callback]
      split
      · by_cases hj : s.is_joy
        · simp only [hj, Bool.not_true, if_false, Bool.false_eq_true]
          simp [Inv, close_bag, h3, h4]
        · simp only [hj, Bool.not_false, if_true]
          by_cases hb : s.bag_open
          · simp [hb, Inv, h1.symm, h3, h4, ← h1, hb]
          · simp [hb, Inv, open_bag, h3, h4]
      · exact ⟨h1, h2, h3, h4⟩
  | tick =>
      simp only [step, control_tick]
      split
      · next hc =>
          simp [Inv, open_bag, h3, h4, hc.2]
      · split
        · simp [Inv, close_bag, h3, h4]
        · exact ⟨h1, h2, h3, h4⟩
  | frame ok =>
      simp only [step, sensor_cb]
      split
      · exact ⟨h1, h2, h3, h4⟩
      · next hr =>
          have hrec : s.recording_active = true := by
            revert hr
            cases s.recording_active <;> simp
          have hw : s.writer_present = true := h1 ▸ h2 hrec
          simp only [hw, not_true, if_false]
          split <;> simp [Inv, h2, h3, h4, hw, h1.trans hw]

theorem inv_run (evts : List Ev) : Inv (runEvents evts) := by
  suffices h : ∀ s, Inv s → Inv (evts.foldl step s) from h _ inv_init
  induction evts with
  | nil => exact fun s hs => hs
  | cons e rest ih => exact fun s hs => ih _ (inv_step s e hs)

/-! ### Claim theorems -/

/-- C1: the delta channel fed to the model is the successive timestamp
differences with a zero prepended (`[0, 0.1, 0.2] ↦ [0, 0.1, 0.1]`);
whenever some successive difference is negative all deltas are replaced
by the constant nominal control period 0.025 s
(`[0, 0.3, 0.1] ↦ [0, 0.025, 0.025]`); the fallback is taken if and only
if some successive delta is negative. -/
theorem c1_delta_channel :
    (∀ ts : List ℚ, nonMonotonic ts = true ↔ ∃ d ∈ diffsQ ts, d < 0) ∧
    (∀ (sl : ℕ) (ts : List ℚ), nonMonotonic ts = true →
      dtFull sl ts = 0 :: List.replicate (sl - 1) 0.025) ∧
    (∀ (sl : ℕ) (ts : List ℚ), nonMonotonic ts = false →
      dtFull sl ts = 0 :: diffsQ ts) ∧
    dtFull 3 [0, 0.1, 0.2] = [0, 0.1, 0.1] ∧
    dtFull 3 [0, 0.3, 0.1] = [0, 0.025, 0.025] := by
  refine ⟨?_, ?_, ?_,
    by norm_num [dtFull, nonMonotonic, diffsQ, List.replicate],
    by norm_num [dtFull, nonMonotonic, diffsQ, List.replicate]⟩
  · intro ts
    simp [nonMonotonic, List.all_eq_true, not_le]
  · intro sl ts h
    simp [dtFull, h]
  · intro sl ts h
    simp [dtFull, h]

/-- Witness for C1 at the non-monotonic input `[0, 0.3, 0.1]`. -/
theorem c1_witness :
    nonMonotonic [0, 0.3, 0.1] = true ∧
    dtFull 3 [0, 0.3, 0.1] = 0 :: List.replicate 2 0.025 :=
  ⟨by norm_num [nonMonotonic, diffsQ],
   c1_delta_channel.2.1 3 [0, 0.3, 0.1]
     (by norm_num [nonMonotonic, diffsQ])⟩

/-- C2: after at least `seq_len` pushes the ring buffer holds exactly the
most recent `seq_len` entries in arrival order (strict FIFO eviction),
and a snapshot is a full, order-preserving copy of them. -/
theorem c2_fifo_buffer :
    ∀ {α : Type} (cap : ℕ) (xs : List α), cap ≤ xs.length →
      pushAll cap [] xs = xs.drop (xs.length - cap) ∧
      (pushAll cap [] xs).length = cap ∧
      snapshot (pushAll cap [] xs) = xs.drop (xs.length - cap) := by
  intro α cap xs h
  have he : pushAll cap ([] : List α) xs = takeRight cap xs := by
    rw [pushAll_eq_takeRight cap [] xs (by simp), List.nil_append]
  have hlen : (pushAll cap ([] : List α) xs).length = cap := by
    rw [he, takeRight_length]
    omega
  exact ⟨he, hlen, he⟩

/-- Witness for C2: five pushes into a capacity-2 buffer keep `[4, 5]`. -/
theorem c2_witness :
    pushAll 2 ([] : List ℕ) [1, 2, 3, 4, 5] = [4, 5] ∧
    (pushAll 2 ([] : List ℕ) [1, 2, 3, 4, 5]).length = 2 :=
  have h := c2_fifo_buffer 2 [1, 2, 3, 4, 5] (by decide)
  ⟨h.1.trans (by decide), h.2.1⟩

/-- C3: `linear_map` on a degenerate domain (`x_min = x_max`) returns the
midpoint of the output range for any input; otherwise it is the exact
affine map, and in particular `linear_map 0.5 0 1 (-0.34) 0.34 = 0`. -/
theorem c3_linear_map :
    (∀ x a y0 y1 : ℚ, linear_map x a a y0 y1 = (y0 + y1) / 2) ∧
    (∀ x x0 x1 y0 y1 : ℚ, x0 ≠ x1 →
      linear_map x x0 x1 y0 y1 = (x - x0) / (x1 - x0) * (y1 - y0) + y0) ∧
    linear_map 0.5 0 1 (-0.34) 0.34 = 0 := by
  refine ⟨?_, ?_, ?_⟩
  · intro x a y0 y1
    rw [linear_map, if_pos rfl]
    ring
  · intro x x0 x1 y0 y1 h
    rw [linear_map, if_neg (Ne.symm h)]
  · norm_num [linear_map]

/-- Witness for C3 on the non-degenerate domain `[0, 1]`. -/
theorem c3_witness :
    linear_map 0.5 0 1 (-0.34) 0.34 =
      (0.5 - 0) / (1 - 0) * (0.34 - (-0.34)) + (-0.34) :=
  c3_linear_map.2.1 0.5 0 1 (-0.34) 0.34 (by norm_num)

/-- C4: with fewer than `seq_len` buffered scans, `dnn_output` returns
the neutral `(0.0, 0.0)` for every model — the interpreter is never
invoked during warm-up. -/
theorem c4_warmup_neutral :
    ∀ (model : ModelFn) (s : DnnState),
      s.buff_scans.length < s.seq_len → dnn_output model s = (0, 0) :=
  fun model s h => dnn_output_underrun model s h

/-- A model returning a non-neutral output, for the warm-up witness. -/
def modelConst : ModelFn := fun _ => Except.ok [0.7, 0.9]

/-- Witness for C4: one buffered scan against `seq_len = 2`. -/
theorem c4_witness : dnn_output modelConst ⟨2, [[1, 2]], [0]⟩ = (0, 0) :=
  c4_warmup_neutral modelConst ⟨2, [[1, 2]], [0]⟩ (by decide)

/-- C5: any exception raised inside the inference sequence is caught in
`dnn_output` and converted to the neutral `(0.0, 0.0)`; `dnn_output`
itself is a total function, so no exception propagates to the control
scheduler. -/
theorem c5_exceptions_caught :
    ∀ (model : ModelFn) (s : DnnState) (e : String),
      runInference model s.seq_len s.buff_scans s.buff_ts =
        Except.error e →
      dnn_output model s = (0, 0) :=
  fun model s e h => dnn_output_caught model s e h

/-- A model whose invocation raises, for the exception witness. -/
def modelFail : ModelFn := fun _ => Except.error "invoke failed"

/-- Witness for C5: a raising model on a full buffer. -/
theorem c5_witness :
    runInference modelFail 1 [[1]] [0] = Except.error "invoke failed" ∧
    dnn_output modelFail ⟨1, [[1]], [0]⟩ = (0, 0) :=
  ⟨rfl, c5_exceptions_caught modelFail ⟨1, [[1]], [0]⟩ "invoke failed" rfl⟩

/-- C6: the mode toggles exactly on a 0→1 rising edge of button A: the
input sequence `[0, 1, 1, 0, 1]` flips the mode only at positions 2 and 5
(trace `false, false, true, true, true, false`); a 0 never flips, and a 1
while the previous value is already 1 is a no-op. -/
theorem c6_mode_toggle :
    (∀ s : NodeState, (button_callback s 0).is_joy = s.is_joy) ∧
    (∀ s : NodeState, s.prev_button = 1 → button_callback s 1 = s) ∧
    (List.scanl button_callback initState [0, 1, 1, 0, 1]).map
        NodeState.is_joy = [false, false, true, true, true, false] := by
  refine ⟨?_, ?_, by decide⟩
  · intro s
    simp [button_callback]
  · intro s h
    cases s
    simp_all [button_callback]

/-- Witness for C6: a repeated 1 with `prev_button = 1` is a no-op. -/
theorem c6_witness :
    button_callback ⟨1, true, true, true, true, 0, false, false⟩ 1 =
      ⟨1, true, true, true, true, 0, false, false⟩ :=
  c6_mode_toggle.2.1 ⟨1, true, true, true, true, 0, false, false⟩ rfl

/-- C7: the session recorder state machine: `close` on a Closed session
is a no-op; a frame arriving while Closed is dropped without touching the
counter; `open` resets the counter to 0 and each successful write adds
exactly 1, so `open; write; write; close` reaches close with counter 2;
and no event trace ever re-opens an already-open bag. -/
theorem c7_session_recorder :
    (∀ s : NodeState, s.bag_open = false → s.writer_present = false →
      s.recording_active = false → close_bag s = s) ∧
    (∀ (s : NodeState) (ok : Bool), s.recording_active = false →
      sensor_cb s ok = s) ∧
    (∀ s : NodeState, (open_bag s).msg_counter = 0) ∧
    (∀ s : NodeState, s.recording_active = true →
      s.writer_present = true →
      (sensor_cb s true).msg_counter = s.msg_counter + 1) ∧
    (∀ s : NodeState,
      (sensor_cb (sensor_cb (open_bag s) true) true).msg_counter = 2 ∧
      (close_bag
        (sensor_cb (sensor_cb (open_bag s) true) true)).msg_counter = 2) ∧
    (∀ evts : List Ev, (runEvents evts).double_open = false) := by
  refine ⟨?_, ?_, ?_, ?_, ?_, ?_⟩
  · intro s h1 h2 h3
    cases s
    simp_all [close_bag]
  · intro s ok h
    simp [sensor_cb, h]
  · intro s
    simp [open_bag]
  · intro s h1 h2
    simp [sensor_cb, h1, h2]
  · intro s
    simp [sensor_cb, open_bag, close_bag]
  · intro evts
    exact (inv_run evts).2.2.1

/-- Witness for C7 at the freshly initialized (Closed) node. -/
theorem c7_witness :
    close_bag initState = initState ∧
    sensor_cb initState true = initState ∧
    (sensor_cb (sensor_cb (open_bag initState) true) true).msg_counter = 2 :=
  ⟨c7_session_recorder.1 initState rfl rfl rfl,
   c7_session_recorder.2.1 initState true rfl,
   (c7_session_recorder.2.2.2.2.1 initState).1⟩

/-- C8: in autonomous mode the published command is
`steer = linear_map(raw_steer, -1, 1, -0.34, 0.34)` (ungained) and
`speed = linear_map(raw_speed, 0, 1, -0.5, 7.0) * 1.2`; in closed form
the published speed is `9·raw_speed - 0.6` and the steering
`0.34·raw_steer`. -/
theorem c8_denormalization :
    (∀ (model : ModelFn) (st : DnnState),
      controlPublish model false st =
        some (linear_map (dnn_output model st).2 0 1 (-0.5) 7.0 * 1.2,
              linear_map (dnn_output model st).1 (-1) 1 (-0.34) 0.34)) ∧
    (∀ v : ℚ, linear_map v 0 1 (-0.5) 7.0 * 1.2 = 9 * v - 0.6) ∧
    (∀ w : ℚ, linear_map w (-1) 1 (-0.34) 0.34 = 0.34 * w) := by
  refine ⟨fun model st => rfl, ?_, ?_⟩
  · intro v
    rw [linear_map, if_neg (by norm_num)]
    norm_num
    ring
  · intro w
    rw [linear_map, if_neg (by norm_num)]
    norm_num
    ring

/-- C9: when the adapter returns the neutral `(0.0, 0.0)` (warm-up or a
caught inference exception), the autonomous branch still publishes
`speed = linear_map(0, 0, 1, -0.5, 7.0) · 1.2 = -0.6 m/s` and
`steering = 0`: the neutral output is not a zero-speed command. -/
theorem c9_neutral_not_zero_speed :
    (∀ (model : ModelFn) (st : DnnState), dnn_output model st = (0, 0) →
      controlPublish model false st = some (-0.6, 0)) ∧
    (∀ (model : ModelFn) (st : DnnState),
      st.buff_scans.length < st.seq_len →
      controlPublish model false st = some (-0.6, 0)) ∧
    linear_map 0 0 1 (-0.5) 7.0 * 1.2 = -0.6 ∧
    linear_map 0 (-1) 1 (-0.34) 0.34 = 0 := by
  have key : ∀ (model : ModelFn) (st : DnnState),
      dnn_output model st = (0, 0) →
      controlPublish model false st = some (-0.6, 0) := by
    intro model st h
    simp only [controlPublish, if_neg Bool.false_ne_true, h]
    norm_num [linear_map]
  refine ⟨key, ?_, ?_, ?_⟩
  · intro model st h
    exact key model st (dnn_output_underrun model st h)
  · norm_num [linear_map]
  · norm_num [linear_map]

/-- Witness for C9: warm-up on an empty buffer publishes `(-0.6, 0)`. -/
theorem c9_witness :
    controlPublish modelConst false ⟨1, [], []⟩ = some (-0.6, 0) :=
  c9_neutral_not_zero_speed.2.1 modelConst ⟨1, [], []⟩ (by decide)

/-- C10: along every event trace from initialization,
`recording_active` implies the bag is open and the writer handle is
present, so `sensor_cb` never reaches a write on an absent handle (the
ghost observer `wrote_no_writer` never fires). -/
theorem c10_recording_invariant :
    ∀ evts : List Ev,
      ((runEvents evts).recording_active = true →
        (runEvents evts).bag_open = true ∧
        (runEvents evts).writer_present = true) ∧
      (runEvents evts).wrote_no_writer = false := by
  intro evts
  obtain ⟨h1, h2, h3, h4⟩ := inv_run evts
  exact ⟨fun hr => ⟨h2 hr, (h1.symm.trans (h2 hr))⟩, h4⟩

/-- Witness for C10: a rising edge then one frame — recording is active,
the bag and writer are live, and the ghost observer is clear. -/
theorem c10_witness :
    (runEvents [Ev.button 1, Ev.frame true]).bag_open = true ∧
    (runEvents [Ev.button 1, Ev.frame true]).writer_present = true ∧
    (runEvents [Ev.button 1, Ev.frame true]).wrote_no_writer = false :=
  have h := c10_recording_invariant [Ev.button 1, Ev.frame true]
  ⟨(h.1 (by decide)).1, (h.1 (by decide)).2, h.2⟩

end RecurrentLidarNet
